import Mathlib

/-!
Verification development for the two LangGraph pipelines of this repository:
the SQL query pipeline (`SQL_Query/src/core/workflow.py`) and the web research
pipeline (`Web_Research_Assistant/src/worflow/research_workflow.py`).

The Python stage functions are shallowly embedded as Lean functions.  External
services (the SQLite connection, the EXPLAIN/execute calls, the LLM, the web
loader) are passed in as explicit environments whose outcomes are `Except`
values: `.ok` models a normal return and `.error` models a raised exception.
Python strings are Lean `String`s; Python dict-based state records become
structures with `Option` fields for keys that may hold `None`.
-/

/-- A Python exception, as relevant to the embedded stages: `sqliteError`
models `sqlite3.Error`, `otherError` any other `Exception`, and `nameError`
the `NameError` raised when an unbound local variable is referenced. -/
inductive PyError where
  | sqliteError (msg : String)
  | otherError (msg : String)
  | nameError (name : String)
  deriving DecidableEq, Repr

/-- The text `str(e)` would render for the exception (used in the f-string
error messages of the stages). -/
def PyError.msg : PyError → String
  | .sqliteError m => m
  | .otherError m => m
  | .nameError n => "NameError: " ++ n

/-- One result row: `dict(row)` with column access by name
(workflow.py line 159). -/
abbrev Row := List (String × String)

/-- The `SQLWorkflowState` TypedDict of workflow.py lines 24-31. -/
structure SQLWorkflowState where
  user_question : String
  generated_sql : Option String
  sql_validation_error : Option String
  query_results : Option (List Row)
  final_response : Option String
  error_message : Option String
  database_schema : Option String
  deriving DecidableEq, Repr

instance {ε α : Type} [DecidableEq ε] [DecidableEq α] : DecidableEq (Except ε α) := fun
  | .ok a, .ok b =>
      if h : a = b then isTrue (by rw [h]) else isFalse (fun hh => h (Except.ok.inj hh))
  | .ok _, .error _ => isFalse (fun hh => Except.noConfusion hh)
  | .error _, .ok _ => isFalse (fun hh => Except.noConfusion hh)
  | .error a, .error b =>
      if h : a = b then isTrue (by rw [h]) else isFalse (fun hh => h (Except.error.inj hh))

/-- Python substring containment (`needle in hay`) over character lists. -/
def subList (n : List Char) : List Char → Bool
  | [] => n.isEmpty
  | c :: t => n.isPrefixOf (c :: t) || subList n t

/-- Python `needle in hay` on strings: substring containment. -/
def containsSub (needle hay : String) : Bool := subList needle.data hay.data

/-- Python `str.upper()` (the queries and keywords involved are ASCII). -/
def pyUpper (s : String) : String := ⟨s.data.map Char.toUpper⟩

/-- Python `str.strip()` over a character list. -/
def pyStripL (l : List Char) : List Char :=
  ((l.dropWhile Char.isWhitespace).reverse.dropWhile Char.isWhitespace).reverse

/-- Python `str.strip()`. -/
def pyStrip (s : String) : String := ⟨pyStripL s.data⟩

/-- The denylist of workflow.py lines 110-113. -/
def destructive_keywords : List String :=
  ["DROP", "DELETE", "UPDATE", "INSERT", "ALTER", "CREATE",
   "TRUNCATE", "REPLACE", "PRAGMA", "ATTACH", "DETACH"]

/-- Environment for the validator stage: the outcome of
`sqlite3.connect(DB_PATH)` and of `cursor.execute("EXPLAIN QUERY PLAN " + sql)`
(workflow.py lines 122 and 126). -/
structure DBEnv where
  connect : Except PyError Unit
  explainQueryPlan : String → Except PyError Unit

/-- Instrumented outcome of one validator invocation: the returned state (or a
propagated exception), and whether the stage reached the `sqlite3.connect`
call and the `EXPLAIN QUERY PLAN` call. -/
structure ValidatorRun where
  result : Except PyError SQLWorkflowState
  connectCalled : Bool
  explainCalled : Bool
  deriving DecidableEq, Repr

/-- `query_validator_node` of workflow.py lines 100-140.

Line-by-line correspondence:
* line 104: short-circuit when `error_message` is set;
* line 107: `state.get("generated_sql", "").upper()` (the embedding reads an
  absent query as `""`);
* lines 115-118: the `for` loop returns on the first keyword contained as a
  Python substring (`keyword in sql_query`), writing the rejection message;
* lines 121-138: the `try` block: `connect` then `EXPLAIN QUERY PLAN`; an
  `sqlite3.Error` from the `try` body is handled on lines 134-136, which set
  the error field and then run `conn.close()` — when `connect` itself was the
  raiser, `conn` is an unbound local and that handler raises `NameError`,
  which escapes the stage; any other exception is handled on lines 137-138;
* line 132: on success `sql_validation_error` is explicitly reset to `None`. -/
def query_validator_node (env : DBEnv) (state : SQLWorkflowState) : ValidatorRun :=
  if state.error_message.isSome then
    ⟨.ok state, false, false⟩
  else
    let sql_query := pyUpper (state.generated_sql.getD "")
    match destructive_keywords.find? (fun kw => containsSub kw sql_query) with
    | some kw =>
        ⟨.ok { state with sql_validation_error := some ("Query contains potentially destructive operation: " ++ kw) },
         false, false⟩
    | none =>
        match env.connect with
        | .ok _ =>
            match env.explainQueryPlan (state.generated_sql.getD "") with
            | .ok _ =>
                ⟨.ok { state with sql_validation_error := none }, true, true⟩
            | .error (.sqliteError m) =>
                ⟨.ok { state with sql_validation_error := some ("SQL syntax error: " ++ m) }, true, true⟩
            | .error e =>
                ⟨.ok { state with sql_validation_error := some ("Validation error: " ++ e.msg) }, true, true⟩
        | .error (.sqliteError _) =>
            -- lines 134-136: handler references the unbound `conn`
            ⟨.error (.nameError "conn"), true, false⟩
        | .error e =>
            ⟨.ok { state with sql_validation_error := some ("Validation error: " ++ e.msg) }, true, false⟩

/-- Environment for the executor stage: the outcome of `sqlite3.connect` and
of `cursor.execute(generated_sql); cursor.fetchall()` converted to row dicts
(workflow.py lines 150-159). -/
structure ExecEnv where
  connect : Except PyError Unit
  executeQuery : String → Except PyError (List Row)

/-- Instrumented outcome of one executor invocation. -/
structure ExecRun where
  result : SQLWorkflowState
  connectCalled : Bool
  executeCalled : Bool
  deriving DecidableEq, Repr

/-- `query_executor_node` of workflow.py lines 142-169.  Line 146 checks both
error fields; the two handlers (lines 164-167) write `error_message` and do
not reference `conn`, so no exception escapes this stage. -/
def query_executor_node (env : ExecEnv) (state : SQLWorkflowState) : ExecRun :=
  if state.error_message.isSome || state.sql_validation_error.isSome then
    ⟨state, false, false⟩
  else
    match env.connect with
    | .ok _ =>
        match env.executeQuery (state.generated_sql.getD "") with
        | .ok rows => ⟨{ state with query_results := some rows }, true, true⟩
        | .error (.sqliteError m) =>
            ⟨{ state with error_message := some ("Database execution error: " ++ m) }, true, true⟩
        | .error e =>
            ⟨{ state with error_message := some ("Query execution error: " ++ e.msg) }, true, true⟩
    | .error (.sqliteError m) =>
        ⟨{ state with error_message := some ("Database execution error: " ++ m) }, true, false⟩
    | .error e =>
        ⟨{ state with error_message := some ("Query execution error: " ++ e.msg) }, true, false⟩

/-- `response_explainer_node` of workflow.py lines 171-234.  Lines 175-181:
when either error field is set, `sql_validation_error` is checked first and
produces the rephrase message, otherwise `error_message` produces the
retry message.  On the success path the LLM response text is stripped
(line 229); an LLM failure produces the fallback sentence of line 232. -/
def response_explainer_node (llm : Except PyError String) (state : SQLWorkflowState) :
    SQLWorkflowState :=
  if state.error_message.isSome || state.sql_validation_error.isSome then
    match state.sql_validation_error with
    | some v =>
        { state with
            final_response := some ("I couldn\x27t execute your query because: " ++ v ++ ". Please rephrase your question.") }
    | none =>
        { state with
            final_response := some ("I encountered an error: " ++ state.error_message.getD "" ++ ". Please try again with a different question.") }
  else
    match llm with
    | .ok text => { state with final_response := some (pyStrip text) }
    | .error e =>
        { state with
            final_response := some ("I found " ++ toString (state.query_results.getD []).length ++ " results for your question, but couldn\x27t generate a detailed explanation. Error: " ++ e.msg) }

/-- The state produced by a lexical denylist rejection for keyword `kw`
(workflow.py line 117). -/
def rejectState (state : SQLWorkflowState) (kw : String) : SQLWorkflowState :=
  { state with
      sql_validation_error := some ("Query contains potentially destructive operation: " ++ kw) }

/-- Modelled from the spec (section 4.2): a SQL-identifier character, for the
spec reading of the denylist check as a whole-token match. -/
def isWordChar (c : Char) : Bool := c.isAlphanum || c == '_'

/-- Modelled from the spec: split a character list into its maximal runs of
identifier characters (the whole tokens of the query text). -/
def tokensAux : List Char → List Char → List (List Char)
  | cur, [] => if cur.isEmpty then [] else [cur.reverse]
  | cur, c :: rest =>
      if isWordChar c then tokensAux (c :: cur) rest
      else if cur.isEmpty then tokensAux [] rest
      else cur.reverse :: tokensAux [] rest

/-- Modelled from the spec (section 4.2): the spec describes the denylist
check as rejecting exactly on a case-insensitive whole-token match — some
whole token of the query equals a denylist keyword.  This definition follows
the spec wording and is compared against the source's substring check in
`query_validator_node`. -/
def spec_wholeTokenMatch (query : String) : Bool :=
  destructive_keywords.any fun kw => (tokensAux [] (pyUpper query).data).contains kw.data

/-- A document returned by `WebBaseLoader.load()` (research_workflow.py
line 123): its `page_content` text and `metadata` dict. -/
structure WebDoc where
  page_content : String
  metadata : List (String × String)
  deriving DecidableEq, Repr

/-- One structured search result as built by `web_search_agent`
(research_workflow.py lines 69-74): every record carries the four keys. -/
structure SearchResult where
  title : String
  url : String
  content : String
  score : Float

/-- One extracted page record as built by `content_loader`
(research_workflow.py lines 138-145 and 156-163). -/
structure PageContent where
  title : String
  url : String
  content : String
  original_content : String
  score : Float
  metadata : List (String × String)

/-- One page summary as built by `document_summarizer`
(research_workflow.py lines 227-232 and 236-241). -/
structure Summary where
  title : String
  url : String
  summary : String
  score : Float

/-- One citation as built by `citation_cache`
(research_workflow.py lines 331-338). -/
structure Citation where
  id : Nat
  title : String
  url : String
  access_date : String
  relevance_score : Float
  citation_format : String

/-- The `ResearchState` TypedDict of research_workflow.py lines 42-50. -/
structure ResearchState where
  query : String
  search_results : List SearchResult
  page_contents : List PageContent
  summaries : List Summary
  final_report : String
  citations : List Citation
  error_message : Option String

/-- Python `str.splitlines()` over a character list, for the newline
character.  (Python also drops a trailing empty line; the caller filters out
empty lines right after stripping, so the difference is immaterial to
`cleanContent`.) -/
def splitLinesL (l : List Char) : List (List Char) :=
  l.foldr
    (fun c acc =>
      if c = '\n' then [] :: acc
      else
        match acc with
        | h :: t => (c :: h) :: t
        | [] => [[c]])
    [[]]

/-- `'\n'.join(lines)` over character lists. -/
def joinNl : List (List Char) → List Char
  | [] => []
  | [l] => l
  | l :: ls => l ++ '\n' :: joinNl ls

/-- The content clean-up of research_workflow.py lines 130-136: strip each
line, drop empty lines, rejoin with newlines, and truncate to 4000 characters
with a trailing ellipsis. -/
def cleanContent (content : String) : String :=
  let lines := (splitLinesL content.data).map pyStripL
  let clean := joinNl (lines.filter fun l => !l.isEmpty)
  if clean.length > 4000 then ⟨clean.take 4000 ++ "...".data⟩ else ⟨clean⟩

/-- The primary-path page record of research_workflow.py lines 125-145,
built from the first returned document. -/
def primaryRecord (result : SearchResult) (doc : WebDoc) : PageContent :=
  { title := result.title
    url := result.url
    content := cleanContent doc.page_content
    original_content := result.content
    score := result.score
    metadata := doc.metadata }

/-- The fallback page record of research_workflow.py lines 152-163: used when
the loader raised or returned no documents; `result.get('content', ...)` is
the Tavily content (always present on a structured result). -/
def fallbackRecord (result : SearchResult) : PageContent :=
  { title := result.title
    url := result.url
    content := result.content
    original_content := result.content
    score := result.score
    metadata := [("source", "tavily_fallback")] }

/-- Processing of one search result by the loader loop body: the primary
record when `loader.load()` returns a non-empty document list, the fallback
record when the load raised or returned an empty list (the `raise` of
line 150 is caught by the per-item handler of line 152). -/
def loadRecord (load : String → Except String (List WebDoc)) (result : SearchResult) :
    PageContent :=
  match load result.url with
  | .ok (doc :: _) => primaryRecord result doc
  | _ => fallbackRecord result

/-- One iteration of the loader loop (research_workflow.py lines 105-167):
a result with an empty `url` is skipped (`if not url: continue`, line 109);
otherwise exactly one record is produced. -/
def loadOne (load : String → Except String (List WebDoc)) (result : SearchResult) :
    Option PageContent :=
  if result.url == "" then none else some (loadRecord load result)

/-- `content_loader` of research_workflow.py lines 95-174: the loop appends
one record per non-skipped search result into `page_contents`.  Per-item
failures are absorbed inside the loop, so the outer handler of lines 172-174
is not reached and `error_message` is left as it came in. -/
def content_loader (load : String → Except String (List WebDoc))
    (state : ResearchState) : ResearchState :=
  { state with page_contents := state.search_results.filterMap (loadOne load) }

/-- `document_summarizer` of research_workflow.py lines 178-248: one summary
per page, in order; `llm i` is the outcome of the LLM call for the i-th page
(lines 217-224).  A per-page failure appends the placeholder entry of
lines 236-241 instead. -/
def document_summarizer (llm : Nat → Except String String) (state : ResearchState) :
    ResearchState :=
  { state with
      summaries := state.page_contents.enum.map fun p =>
        match llm p.1 with
        | .ok text => { title := p.2.title, url := p.2.url, summary := text, score := p.2.score }
        | .error e => { title := p.2.title, url := p.2.url, summary := "Summary failed: " ++ e, score := p.2.score } }

/-- The `summaries_text` accumulation of research_workflow.py lines 263-268. -/
def summariesText (summaries : List Summary) : String :=
  summaries.enum.foldl
    (fun acc p =>
      acc ++ ("\n\n--- Source " ++ (toString (p.1 + 1) ++ (" ---\n" ++ ("Title: " ++ (p.2.title ++ ("\n" ++ ("URL: " ++ (p.2.url ++ ("\n" ++ ("Summary: " ++ (p.2.summary ++ "\n"))))))))))))
    ""

/-- `report_writer` of research_workflow.py lines 252-314: it builds the
summaries text and calls the LLM unconditionally (no error-field check); on
success it writes `final_report`, on failure the handler of lines 312-314
writes `error_message`. -/
def report_writer (llm : String → Except String String) (state : ResearchState) :
    ResearchState :=
  match llm (summariesText state.summaries) with
  | .ok report => { state with final_report := report }
  | .error e => { state with error_message := some ("Report writing failed: " ++ e) }

/-- `citation_cache` of research_workflow.py lines 318-358: one citation per
summary via `enumerate(summaries, 1)`; `today` is `time.strftime("%Y-%m-%d")`
at the moment of the call. -/
def citation_cache (today : String) (state : ResearchState) : ResearchState :=
  { state with
      citations := state.summaries.enum.map fun p =>
        { id := p.1 + 1
          title := p.2.title
          url := p.2.url
          access_date := today
          relevance_score := p.2.score
          citation_format := "[" ++ (toString (p.1 + 1) ++ ("] " ++ (p.2.title ++ (". Retrieved " ++ (today ++ (". " ++ p.2.url)))))) } }

/-- The `data` dict of `format_research_response`
(research_workflow.py lines 606-615). -/
structure ResponseData where
  query : String
  sources_found : Nat
  pages_processed : Nat
  summaries_generated : Nat
  report : String
  citations : List Citation
  report_length : Nat
  timestamp : String

/-- The response envelope of `format_research_response`. -/
structure FormattedResponse where
  success : Bool
  error : Option String
  data : Option ResponseData

/-- `format_research_response` of research_workflow.py lines 587-616 on an
actual state record (the `if not result` guard of line 589 cannot fire for a
state produced by the workflow); `now` is `time.strftime` at the call. -/
def format_research_response (now : String) (result : ResearchState) : FormattedResponse :=
  match result.error_message with
  | some e => { success := false, error := some e, data := none }
  | none =>
      { success := true
        error := none
        data := some
          { query := result.query
            sources_found := result.search_results.length
            pages_processed := result.page_contents.length
            summaries_generated := result.summaries.length
            report := result.final_report
            citations := result.citations
            report_length := result.final_report.length
            timestamp := now } }

/-- Kind of a streamed event (`"type"` key) in `run_research_stream`. -/
inductive EvKind where
  | status
  | result
  | error
  deriving DecidableEq, Repr

/-- One yielded event of `run_research_stream`: its kind, its `step` label and
its `progress` value when present.  (The `message` text and per-event `data`
payload carry no information the claims are about and are not modelled.) -/
structure StreamEvent where
  kind : EvKind
  step : Option String
  progress : Option Nat
  deriving DecidableEq, Repr

/-- The node sequence of the compiled research graph, from the `add_edge`
chain of `create_research_workflow` (research_workflow.py lines 377-382). -/
def research_node_order : List String :=
  ["web_search", "content_loader", "summarizer", "report_writer", "citation_cache"]

/-- The status event the streaming loop of research_workflow.py lines 437-500
yields for an event keyed by the given node name; an event matching none of
the five branches yields nothing. -/
def node_status_event (node : String) : Option StreamEvent :=
  if node == "web_search" then some ⟨.status, some "searching", some 20⟩
  else if node == "content_loader" then some ⟨.status, some "loading", some 40⟩
  else if node == "summarizer" then some ⟨.status, some "summarizing", some 60⟩
  else if node == "report_writer" then some ⟨.status, some "writing", some 80⟩
  else if node == "citation_cache" then some ⟨.status, some "finalizing", some 95⟩
  else none

/-- The event sequence of a `run_research_stream` invocation whose `try` body
runs to completion (research_workflow.py lines 421-519): the initial status
yield of line 423, one status yield per streamed node event (the graph is a
linear chain, so the five nodes fire in declaration order), the completion
status of line 506, and the final `result` yield of line 515.  Stage-internal
failures are caught inside the stages, so they do not interrupt this
sequence. -/
def stream_success_events : List StreamEvent :=
  ⟨.status, some "initializing", some 0⟩ ::
    (research_node_order.filterMap node_status_event ++
      [⟨.status, some "completed", some 100⟩, ⟨.result, none, none⟩])

/-- The single event yielded by the `except` handler of research_workflow.py
lines 521-528. -/
def stream_error_event : StreamEvent := ⟨.error, some "failed", none⟩

/-- `run_research_stream` of research_workflow.py lines 392-528, as the event
sequence one invocation of the generator produces.  `failAfter = none` is a
run whose `try` body completes; `failAfter = some j` is a run where an
exception reaches the `try` block of the generator after `j + 1` events have
been yielded (the first statement of the `try` block is a yield, so at least
one event precedes any failure, and nothing runs after the final yield, so at
most 7 events do), upon which the handler yields the error event and the
generator ends. -/
def run_research_stream : Option (Fin 7) → List StreamEvent
  | none => stream_success_events
  | some j => stream_success_events.take (j.val + 1) ++ [stream_error_event]

/-- A terminal event: kind `result` or `error`. -/
def isTerminalEvent (e : StreamEvent) : Bool := e.kind == .result || e.kind == .error

/-- Adjacent pairs are non-decreasing. -/
def nondecreasingB : List Nat → Bool
  | [] => true
  | [_] => true
  | a :: b :: t => Nat.ble a b && nondecreasingB (b :: t)

/-- Adjacent pairs are strictly increasing. -/
def strictlyIncreasingB : List Nat → Bool
  | [] => true
  | [_] => true
  | a :: b :: t => Nat.blt a b && strictlyIncreasingB (b :: t)

/-- Fixture: an environment whose connect/plan calls succeed. -/
def trivialDBEnv : DBEnv := ⟨.ok (), fun _ => .ok ()⟩

/-- Fixture: an environment whose connect/execute calls succeed with no rows. -/
def trivialExecEnv : ExecEnv := ⟨.ok (), fun _ => .ok []⟩

/-- Fixture: a fresh SQL pipeline state for the question `"q"`. -/
def baseSQLState : SQLWorkflowState :=
  { user_question := "q"
    generated_sql := none
    sql_validation_error := none
    query_results := none
    final_response := none
    error_message := none
    database_schema := none }

/-- Fixture: a zero relevance score. -/
def score0 : Float := 0

/-- Fixture: a search result with the given url. -/
def sampleSearchResult (u : String) : SearchResult :=
  { title := "Sample title", url := u, content := "tavily text", score := score0 }

/-- Fixture: a page record. -/
def samplePage : PageContent :=
  { title := "Sample title"
    url := "http://example.com"
    content := "body"
    original_content := "tavily text"
    score := score0
    metadata := [] }

/-- Fixture: a summary record. -/
def sampleSummary : Summary :=
  { title := "Sample title", url := "http://example.com", summary := "summary text", score := score0 }

/-- Fixture: a fresh research pipeline state for the query `"q"`. -/
def emptyResearchState : ResearchState :=
  { query := "q"
    search_results := []
    page_contents := []
    summaries := []
    final_report := ""
    citations := []
    error_message := none }

theorem str_append_assoc : ∀ a b c : String, a ++ b ++ c = a ++ (b ++ c)
  | ⟨a⟩, ⟨b⟩, ⟨c⟩ => congrArg String.mk (List.append_assoc a b c)

theorem filterMap_guard {α β : Type} (p : α → Bool) (f : α → β) (l : List α) :
    l.filterMap (fun a => if p a then none else some (f a)) =
      (l.filter fun a => !p a).map f := by
  induction l with
  | nil => rfl
  | cons a t ih =>
      by_cases h : p a <;> simp [List.filterMap_cons, List.filter_cons, h, ih]

theorem enum_map_getElem {α β : Type} (l : List α) (f : Nat × α → β) (i : Nat) :
    (l.enum.map f)[i]? = l[i]?.map fun a => f (i, a) := by
  rw [List.getElem?_map, List.getElem?_enum, Option.map_map]
  rfl

theorem validator_skips_on_find_none (env : DBEnv) (state : SQLWorkflowState)
    (h : state.error_message = none)
    (hf : destructive_keywords.find?
        (fun k => containsSub k (pyUpper (state.generated_sql.getD ""))) = none) :
    (query_validator_node env state).connectCalled = true := by
  have h2 : state.error_message.isSome = false := by rw [h]; rfl
  unfold query_validator_node
  simp only [h2, Bool.false_eq_true, if_false, hf]
  rcases env.connect with e | u
  · rcases e <;> rfl
  · rcases env.explainQueryPlan (state.generated_sql.getD "") with e2 | u2
    · rcases e2 <;> rfl
    · rfl

/-- C1 (amended): the lexical denylist check of `query_validator_node` rejects
exactly when some denylist keyword occurs as a case-insensitive substring
(Python `in` on the uppercased text) of the candidate query, not only as a
whole-token match; the rejection names the first keyword of the scan order
that matches, sets the validation-error field to the UnsafeOperation-style
message, and skips the database entirely, while every substring-clean query
proceeds to the dry-run plan check. -/
theorem validator_lexical_check_is_substring (env : DBEnv) (state : SQLWorkflowState)
    (h : state.error_message = none) :
    (∀ kw, destructive_keywords.find?
        (fun k => containsSub k (pyUpper (state.generated_sql.getD ""))) = some kw →
      query_validator_node env state = ⟨.ok (rejectState state kw), false, false⟩)
    ∧ ((∀ kw ∈ destructive_keywords,
          containsSub kw (pyUpper (state.generated_sql.getD "")) = false) →
        (query_validator_node env state).connectCalled = true)
    ∧ ((query_validator_node env state).connectCalled = false ↔
        ∃ kw ∈ destructive_keywords,
          containsSub kw (pyUpper (state.generated_sql.getD "")) = true) := by
  have h2 : state.error_message.isSome = false := by rw [h]; rfl
  refine ⟨?_, ?_, ?_⟩
  · intro kw hkw
    unfold query_validator_node
    simp only [h2, Bool.false_eq_true, if_false, hkw, rejectState]
  · intro hall
    exact validator_skips_on_find_none env state h
      (List.find?_eq_none.mpr (by intro x hx; simp [hall x hx]))
  · rcases hf : destructive_keywords.find?
        (fun k => containsSub k (pyUpper (state.generated_sql.getD ""))) with _ | kw
    · have hc := validator_skips_on_find_none env state h hf
      rw [hc]
      simp only [Bool.true_eq_false, false_iff]
      rintro ⟨kw, hmem, hp⟩
      exact absurd hp (by simpa using List.find?_eq_none.mp hf kw hmem)
    · have hmem := List.mem_of_find?_eq_some hf
      have hp := List.find?_some hf
      have hrun : query_validator_node env state = ⟨.ok (rejectState state kw), false, false⟩ := by
        unfold query_validator_node
        simp only [h2, Bool.false_eq_true, if_false, hf, rejectState]
      rw [hrun]
      simp only [true_iff]
      exact ⟨kw, hmem, hp⟩

/-- C1 witness: the amended theorem applied to the query
`"DROP TABLE customers"`, whose first matching keyword is `DROP`. -/
theorem validator_lexical_check_is_substring_witness :
    query_validator_node trivialDBEnv { baseSQLState with generated_sql := some "DROP TABLE customers" } =
      ⟨.ok (rejectState { baseSQLState with generated_sql := some "DROP TABLE customers" } "DROP"),
       false, false⟩ :=
  (validator_lexical_check_is_substring trivialDBEnv
      { baseSQLState with generated_sql := some "DROP TABLE customers" } rfl).1
    "DROP" (by decide)

/-- C1 counterexample: the query `"SELECT CREATED_AT FROM ORDERS"` contains no
denylist keyword as a whole token (its tokens are `SELECT`, `CREATED_AT`,
`FROM`, `ORDERS`), yet the validator rejects it — naming `CREATE` — and never
reaches the plan check, refuting the claim that whole-token-clean queries
proceed to the dry-run. -/
theorem validator_whole_token_counterexample :
    spec_wholeTokenMatch "SELECT CREATED_AT FROM ORDERS" = false
    ∧ query_validator_node trivialDBEnv
        { baseSQLState with generated_sql := some "SELECT CREATED_AT FROM ORDERS" } =
      ⟨.ok { baseSQLState with
               generated_sql := some "SELECT CREATED_AT FROM ORDERS"
               sql_validation_error := some "Query contains potentially destructive operation: CREATE" },
       false, false⟩ := by
  constructor
  · decide
  · decide

/-- C2 (amended): the short-circuit rule holds in the SQL pipeline — once
`error_message` is set, `query_validator_node` and `query_executor_node`
return the input snapshot itself, performing no database call — but the
research pipeline stages perform no error-field check (see the accompanying
counterexample: `report_writer` still calls the LLM and overwrites
`final_report` with `error_message` set). -/
theorem sql_stages_short_circuit_on_error :
    (∀ (env : DBEnv) (state : SQLWorkflowState), state.error_message.isSome = true →
        query_validator_node env state = ⟨.ok state, false, false⟩)
    ∧ (∀ (env : ExecEnv) (state : SQLWorkflowState), state.error_message.isSome = true →
        query_executor_node env state = ⟨state, false, false⟩) := by
  constructor
  · intro env state h
    unfold query_validator_node
    simp [h]
  · intro env state h
    unfold query_executor_node
    simp [h]

/-- C2 witness: both short-circuits applied to a state carrying a generation
error. -/
theorem sql_stages_short_circuit_on_error_witness :
    query_validator_node trivialDBEnv
        { baseSQLState with error_message := some "Error generating SQL: boom" } =
      ⟨.ok { baseSQLState with error_message := some "Error generating SQL: boom" }, false, false⟩
    ∧ query_executor_node trivialExecEnv
        { baseSQLState with error_message := some "Error generating SQL: boom" } =
      ⟨{ baseSQLState with error_message := some "Error generating SQL: boom" }, false, false⟩ :=
  ⟨sql_stages_short_circuit_on_error.1 trivialDBEnv
      { baseSQLState with error_message := some "Error generating SQL: boom" } rfl,
   sql_stages_short_circuit_on_error.2 trivialExecEnv
      { baseSQLState with error_message := some "Error generating SQL: boom" } rfl⟩

/-- C2 counterexample: with `error_message` already set by the search stage,
`report_writer` still performs its LLM call and overwrites `final_report`
(a field besides the error field), refuting the claim that every non-terminal
research stage first checks the error field and returns its input snapshot
unchanged. -/
theorem research_stage_ignores_error_counterexample :
    ({ emptyResearchState with error_message := some "Search failed: boom" } : ResearchState).error_message.isSome = true
    ∧ (report_writer (fun _ => .ok "REPORT")
        { emptyResearchState with error_message := some "Search failed: boom" }).final_report = "REPORT"
    ∧ ({ emptyResearchState with error_message := some "Search failed: boom" } : ResearchState).final_report = "" :=
  ⟨rfl, rfl, rfl⟩

theorem str_data_append : ∀ a b : String, (a ++ b).data = a.data ++ b.data
  | ⟨_⟩, ⟨_⟩ => rfl

/-- C3: whenever the generated query contains a denylist keyword (Python
substring containment on the uppercased text — in particular any
case-insensitive whole-token occurrence), the validator writes the
"destructive operation" message naming a denylist keyword and returns without
touching the database (neither `connect` nor `EXPLAIN` happen), the executor
stage then performs no execution and returns its input unchanged, and the
terminal explainer response contains "destructive operation". -/
theorem denylist_rejection_blocks_execution (env1 : DBEnv) (env2 : ExecEnv)
    (llm : Except PyError String) (state : SQLWorkflowState) (kw : String)
    (herr : state.error_message = none)
    (hmem : kw ∈ destructive_keywords)
    (hsub : containsSub kw (pyUpper (state.generated_sql.getD "")) = true) :
    ∃ k ∈ destructive_keywords,
      query_validator_node env1 state = ⟨.ok (rejectState state k), false, false⟩
      ∧ query_executor_node env2 (rejectState state k) = ⟨rejectState state k, false, false⟩
      ∧ ∃ p q, (response_explainer_node llm (rejectState state k)).final_response =
          some (p ++ ("destructive operation" ++ q)) := by
  have h2 : state.error_message.isSome = false := by rw [herr]; rfl
  have hex : ∃ k, destructive_keywords.find?
      (fun c => containsSub c (pyUpper (state.generated_sql.getD ""))) = some k := by
    cases hf : destructive_keywords.find?
        (fun c => containsSub c (pyUpper (state.generated_sql.getD ""))) with
    | none => exact absurd hsub (by simpa using List.find?_eq_none.mp hf kw hmem)
    | some k => exact ⟨k, rfl⟩
  obtain ⟨k, hf⟩ := hex
  refine ⟨k, List.mem_of_find?_eq_some hf, ?_, ?_, ?_⟩
  · unfold query_validator_node
    simp only [h2, Bool.false_eq_true, if_false, hf, rejectState]
  · unfold query_executor_node
    simp [rejectState]
  · unfold response_explainer_node
    simp only [rejectState, Option.isSome_some, Bool.or_true, if_true]
    refine ⟨"I couldn\x27t execute your query because: Query contains potentially ",
            ": " ++ (k ++ ". Please rephrase your question."), ?_⟩
    have hlit : ("I couldn\x27t execute your query because: " : String) ++
          "Query contains potentially destructive operation: " =
        "I couldn\x27t execute your query because: Query contains potentially " ++
          ("destructive operation" ++ ": ") := by decide
    simp only [Option.some.injEq]
    rw [str_append_assoc, str_append_assoc,
        ← str_append_assoc "I couldn\x27t execute your query because: "
          "Query contains potentially destructive operation: "
          (k ++ ". Please rephrase your question."),
        hlit, str_append_assoc, str_append_assoc]

/-- C3 witness: the scenario of the spec, query `"DROP TABLE customers"`. -/
theorem denylist_rejection_blocks_execution_witness :
    ∃ k ∈ destructive_keywords,
      query_validator_node trivialDBEnv
          { baseSQLState with generated_sql := some "DROP TABLE customers" } =
        ⟨.ok (rejectState { baseSQLState with generated_sql := some "DROP TABLE customers" } k),
         false, false⟩
      ∧ query_executor_node trivialExecEnv
            (rejectState { baseSQLState with generated_sql := some "DROP TABLE customers" } k) =
          ⟨rejectState { baseSQLState with generated_sql := some "DROP TABLE customers" } k,
           false, false⟩
      ∧ ∃ p q, (response_explainer_node (.ok "ignored")
            (rejectState { baseSQLState with generated_sql := some "DROP TABLE customers" } k)).final_response =
          some (p ++ ("destructive operation" ++ q)) :=
  denylist_rejection_blocks_execution trivialDBEnv trivialExecEnv (.ok "ignored")
    { baseSQLState with generated_sql := some "DROP TABLE customers" } "DROP"
    rfl (by decide) (by decide)

/-- C4 (code bug): with a lexically clean query, when `sqlite3.connect` itself
raises `sqlite3.Error`, the validator stage does not convert the failure into
an error-field value: the `except sqlite3.Error` handler runs `conn.close()`
on the unbound local `conn` and the resulting `NameError` escapes the stage
boundary, contradicting the claim that no stage lets an exception
propagate. -/
theorem validator_connect_failure_propagates :
    (query_validator_node
        ⟨.error (.sqliteError "unable to open database file"), fun _ => .ok ()⟩
        { baseSQLState with generated_sql := some "SELECT 1" }).result
      = .error (.nameError "conn") := by decide

/-- C5: for a state whose query passes the denylist and whose plan call
succeeds, the validator returns the state with `sql_validation_error`
explicitly reset to `none`, whatever stale value that field held before. -/
theorem validator_clears_stale_error (env : DBEnv) (state : SQLWorkflowState)
    (herr : state.error_message = none)
    (hclean : ∀ kw ∈ destructive_keywords,
        containsSub kw (pyUpper (state.generated_sql.getD "")) = false)
    (hconn : env.connect = .ok ())
    (hplan : env.explainQueryPlan (state.generated_sql.getD "") = .ok ()) :
    query_validator_node env state =
      ⟨.ok { state with sql_validation_error := none }, true, true⟩ := by
  have h2 : state.error_message.isSome = false := by rw [herr]; rfl
  have hf : destructive_keywords.find?
      (fun k => containsSub k (pyUpper (state.generated_sql.getD ""))) = none :=
    List.find?_eq_none.mpr (by intro x hx; simp [hclean x hx])
  unfold query_validator_node
  simp only [h2, Bool.false_eq_true, if_false, hf, hconn, hplan]

/-- C5 witness: re-validating an already-valid query on a record carrying a
stale validation error leaves the field absent. -/
theorem validator_clears_stale_error_witness :
    query_validator_node trivialDBEnv
        { baseSQLState with generated_sql := some "SELECT 1", sql_validation_error := some "stale" } =
      ⟨.ok { baseSQLState with generated_sql := some "SELECT 1", sql_validation_error := none },
       true, true⟩ :=
  validator_clears_stale_error trivialDBEnv
    { baseSQLState with generated_sql := some "SELECT 1", sql_validation_error := some "stale" }
    rfl (by decide) rfl rfl

/-- C7: when any error is recorded, the explainer acts on
`sql_validation_error` with precedence over `error_message` — whenever the
validation field is set its rephrase message is produced, whatever
`error_message` holds — and an `error_message`-only state produces the
distinct retry message. -/
theorem explainer_error_precedence (llm : Except PyError String) (state : SQLWorkflowState) :
    (∀ v, state.sql_validation_error = some v →
        (response_explainer_node llm state).final_response =
          some ("I couldn\x27t execute your query because: " ++ v ++
                ". Please rephrase your question."))
    ∧ (∀ m, state.sql_validation_error = none → state.error_message = some m →
        (response_explainer_node llm state).final_response =
          some ("I encountered an error: " ++ m ++
                ". Please try again with a different question.")) := by
  constructor
  · intro v hv
    unfold response_explainer_node
    simp [hv]
  · intro m h1 hm
    unfold response_explainer_node
    simp [h1, hm]

/-- C7 witness: with both error fields set the validation message wins; with
only the execution error set the retry message is produced. -/
theorem explainer_error_precedence_witness :
    (response_explainer_node (.ok "ignored")
        { baseSQLState with
            sql_validation_error := some "SQL syntax error: bad"
            error_message := some "Database execution error: boom" }).final_response =
      some ("I couldn\x27t execute your query because: " ++ "SQL syntax error: bad" ++
            ". Please rephrase your question.")
    ∧ (response_explainer_node (.ok "ignored")
        { baseSQLState with error_message := some "Database execution error: boom" }).final_response =
      some ("I encountered an error: " ++ "Database execution error: boom" ++
            ". Please try again with a different question.") :=
  ⟨(explainer_error_precedence (.ok "ignored")
      { baseSQLState with
          sql_validation_error := some "SQL syntax error: bad"
          error_message := some "Database execution error: boom" }).1
    "SQL syntax error: bad" rfl,
   (explainer_error_precedence (.ok "ignored")
      { baseSQLState with error_message := some "Database execution error: boom" }).2
    "Database execution error: boom" rfl rfl⟩

/-- C6 (amended): the content loader produces exactly one record — primary or
fallback — per search result whose `url` field is non-empty, in input order,
and a record whose load failed is the fallback record tagged
`source = tavily_fallback`; results with an empty `url` are skipped by the
`continue` of line 109, so the output length equals the number of
non-empty-url inputs (not the full input length). -/
theorem content_loader_one_record_per_nonempty_url
    (load : String → Except String (List WebDoc)) (state : ResearchState) :
    (content_loader load state).page_contents =
      ((state.search_results.filter fun r => !(r.url == "")).map (loadRecord load))
    ∧ (content_loader load state).page_contents.length =
      (state.search_results.filter fun r => !(r.url == "")).length
    ∧ (∀ r : SearchResult, ∀ e, load r.url = .error e →
        (loadRecord load r).metadata = [("source", "tavily_fallback")])
    ∧ (content_loader load state).error_message = state.error_message := by
  have hmap : (content_loader load state).page_contents =
      ((state.search_results.filter fun r => !(r.url == "")).map (loadRecord load)) :=
    filterMap_guard (fun r : SearchResult => r.url == "") (loadRecord load) state.search_results
  refine ⟨hmap, ?_, ?_, rfl⟩
  · rw [hmap, List.length_map]
  · intro r e he
    unfold loadRecord
    rw [he]
    exact rfl

/-- C6 witness: a single result whose load fails yields exactly the tagged
fallback record and an output of the filtered length. -/
theorem content_loader_one_record_per_nonempty_url_witness :
    (loadRecord (fun _ => .error "network down")
        (sampleSearchResult "http://example.com")).metadata = [("source", "tavily_fallback")]
    ∧ (content_loader (fun _ => .error "network down")
        { emptyResearchState with search_results := [sampleSearchResult "http://example.com"] }).page_contents.length =
      (({ emptyResearchState with search_results := [sampleSearchResult "http://example.com"] } : ResearchState).search_results.filter
          fun r => !(r.url == "")).length :=
  ⟨(content_loader_one_record_per_nonempty_url (fun _ => .error "network down")
        { emptyResearchState with search_results := [sampleSearchResult "http://example.com"] }).2.2.1
      (sampleSearchResult "http://example.com") "network down" rfl,
   (content_loader_one_record_per_nonempty_url (fun _ => .error "network down")
        { emptyResearchState with search_results := [sampleSearchResult "http://example.com"] }).2.1⟩

/-- C6 counterexample: a search-result list of length 1 whose single record
has an empty `url` produces an output list of length 0 — the record is
dropped by the `continue` of line 109, refuting the claim that the output
length always equals the input length. -/
theorem content_loader_drops_empty_url_counterexample :
    ({ emptyResearchState with search_results := [sampleSearchResult ""] } : ResearchState).search_results.length = 1
    ∧ (content_loader (fun _ => .error "network down")
        { emptyResearchState with search_results := [sampleSearchResult ""] }).page_contents.length = 0 :=
  ⟨rfl, rfl⟩

/-- C8: every event sequence one invocation of `run_research_stream` can
produce is finite and non-empty, begins with the progress-0 status (below
100), has monotonically non-decreasing progress values, and contains exactly
one terminal (`result` or `error`) event, which is its last element; on a run
whose body completes, progress is strictly increasing and the terminal
`result` event is immediately preceded by the progress-100 status. -/
theorem stream_events_wellformed :
    ∀ f : Option (Fin 7),
      run_research_stream f ≠ []
      ∧ ((run_research_stream f).head?.bind (fun e => e.progress) = some 0)
      ∧ (((run_research_stream f).head?.bind (fun e => e.progress)).all (· < 100) = true)
      ∧ nondecreasingB ((run_research_stream f).filterMap (fun e => e.progress)) = true
      ∧ ((run_research_stream f).filter isTerminalEvent).length = 1
      ∧ ((run_research_stream f).getLast?.map isTerminalEvent = some true)
      ∧ (f = none →
          strictlyIncreasingB ((run_research_stream f).filterMap (fun e => e.progress)) = true
          ∧ (run_research_stream f).getLast? = some ⟨.result, none, none⟩
          ∧ (run_research_stream f).dropLast.getLast? =
              some ⟨.status, some "completed", some 100⟩) := by
  intro f
  rcases f with _ | j
  · decide
  · fin_cases j <;> decide

/-- C8 witness: the successful-run conclusions at `f = none`. -/
theorem stream_events_wellformed_witness :
    strictlyIncreasingB ((run_research_stream none).filterMap (fun e => e.progress)) = true
    ∧ (run_research_stream none).getLast? = some ⟨.result, none, none⟩ :=
  ⟨((stream_events_wellformed none).2.2.2.2.2.2 rfl).1,
   ((stream_events_wellformed none).2.2.2.2.2.2 rfl).2.1⟩

/-- C9: the citation stage produces exactly one citation per summary, in
summary order; the i-th citation (0-based `i`) has id `i + 1`, carries the
i-th summary's title and url, and its rendered string begins with the
bracketed sequence number; the formatted API response passes the citation
list through unchanged. -/
theorem citation_numbering (today now : String) (state : ResearchState) :
    (citation_cache today state).citations.length = state.summaries.length
    ∧ (∀ i s, state.summaries[i]? = some s →
        ∃ c, (citation_cache today state).citations[i]? = some c
          ∧ c.id = i + 1
          ∧ c.title = s.title
          ∧ c.url = s.url
          ∧ ∃ rest, c.citation_format = "[" ++ (toString (i + 1) ++ ("] " ++ rest)))
    ∧ (state.error_message = none →
        ∃ d, format_research_response now (citation_cache today state) =
            { success := true, error := none, data := some d }
          ∧ d.citations = (citation_cache today state).citations) := by
  refine ⟨?_, ?_, ?_⟩
  · show (state.summaries.enum.map _).length = _
    rw [List.length_map, List.enum_length]
  · intro i s hs
    refine ⟨{ id := i + 1, title := s.title, url := s.url, access_date := today,
              relevance_score := s.score,
              citation_format := "[" ++ (toString (i + 1) ++ ("] " ++ (s.title ++ (". Retrieved " ++ (today ++ (". " ++ s.url)))))) },
            ?_, rfl, rfl, rfl, ⟨_, rfl⟩⟩
    show (state.summaries.enum.map _)[i]? = _
    rw [enum_map_getElem, hs]
    rfl
  · intro he
    refine ⟨⟨state.query, state.search_results.length, state.page_contents.length,
             state.summaries.length, state.final_report,
             (citation_cache today state).citations, state.final_report.length, now⟩,
           ?_, rfl⟩
    unfold format_research_response
    rw [show (citation_cache today state).error_message = state.error_message from rfl, he]
    exact rfl

/-- C9 witness: a single summary yields the single citation `[1] ...` and the
response envelope carries it through. -/
theorem citation_numbering_witness :
    (citation_cache "2026-10-12" { emptyResearchState with summaries := [sampleSummary] }).citations.length =
      ({ emptyResearchState with summaries := [sampleSummary] } : ResearchState).summaries.length
    ∧ (∃ c, (citation_cache "2026-10-12" { emptyResearchState with summaries := [sampleSummary] }).citations[0]? = some c
        ∧ c.id = 0 + 1
        ∧ c.title = sampleSummary.title
        ∧ c.url = sampleSummary.url
        ∧ ∃ rest, c.citation_format = "[" ++ (toString (0 + 1) ++ ("] " ++ rest)))
    ∧ (∃ d, format_research_response "2026-10-12 00:00:00"
          (citation_cache "2026-10-12" { emptyResearchState with summaries := [sampleSummary] }) =
        { success := true, error := none, data := some d }
        ∧ d.citations = (citation_cache "2026-10-12" { emptyResearchState with summaries := [sampleSummary] }).citations) :=
  ⟨(citation_numbering "2026-10-12" "2026-10-12 00:00:00"
      { emptyResearchState with summaries := [sampleSummary] }).1,
   (citation_numbering "2026-10-12" "2026-10-12 00:00:00"
      { emptyResearchState with summaries := [sampleSummary] }).2.1 0 sampleSummary rfl,
   (citation_numbering "2026-10-12" "2026-10-12 00:00:00"
      { emptyResearchState with summaries := [sampleSummary] }).2.2 rfl⟩

/-- C10: the summarizer returns one summary per incoming page record, in
order, leaving the run-level error field as it came in; a per-page LLM
failure yields the placeholder entry carrying that page's title and url and a
"Summary failed" text instead of dropping the page. -/
theorem summarizer_absorbs_failures (llm : Nat → Except String String) (state : ResearchState) :
    (document_summarizer llm state).summaries.length = state.page_contents.length
    ∧ (document_summarizer llm state).error_message = state.error_message
    ∧ (∀ i page e, state.page_contents[i]? = some page → llm i = .error e →
        (document_summarizer llm state).summaries[i]? =
          some { title := page.title, url := page.url,
                 summary := "Summary failed: " ++ e, score := page.score }) := by
  refine ⟨?_, rfl, ?_⟩
  · show (state.page_contents.enum.map _).length = _
    rw [List.length_map, List.enum_length]
  · intro i page e hp he
    show (state.page_contents.enum.map _)[i]? = _
    rw [enum_map_getElem, hp]
    simp [he]

/-- C10 witness: a run whose only LLM call fails still yields one summary,
the placeholder for that page. -/
theorem summarizer_absorbs_failures_witness :
    (document_summarizer (fun _ => .error "boom")
        { emptyResearchState with page_contents := [samplePage] }).summaries[0]? =
      some { title := samplePage.title, url := samplePage.url,
             summary := "Summary failed: " ++ "boom", score := samplePage.score } :=
  (summarizer_absorbs_failures (fun _ => .error "boom")
      { emptyResearchState with page_contents := [samplePage] }).2.2 0 samplePage "boom" rfl rfl
